import Mathlib

/-!
Shallow embedding of the Music-Spreadsheet-Tool repository
(src/main.py and src/spotify_auth.py).

External services (the Spotify web API, the Google Sheets API, the system
clock and the strptime/strftime library routines) are modelled as explicit
parameters: an API response is an `Except` value (error = the request
raised), the timestamp reformatting step is an abstract
`String -> Option String` (none = strptime raised), a worksheet is its
list of rows, and per-batch append failures are an oracle on the call
index. Python dicts produced by the fetchers always carry the same keys,
so they are modelled as a structure; `dict.get` with a default is total on
that structure.
-/

namespace MusicSheet

variable {α β γ : Type _}

/-- Cell values written to the spreadsheet: Python writes either strings
or ints into row cells. -/
inductive Val where
  | s (str : String)
  | n (num : Nat)
deriving DecidableEq, Repr

/-- One spreadsheet row. -/
abbrev Row := List Val

/-- A worksheet is its list of rows, in order. -/
abbrev Sheet := List Row

/-- An artist object as it appears inside a track (only its name is read). -/
structure ArtistRef where
  name : String
deriving DecidableEq, Repr

/-- An album object (only its name is read). -/
structure AlbumRef where
  name : String
deriving DecidableEq, Repr

/-- A track object from the recently-played / top-tracks responses. -/
structure Track where
  name : String
  artists : List ArtistRef
  album : AlbumRef
  duration_ms : Nat
  popularity : Nat
deriving DecidableEq, Repr

/-- A playback context object (only its type field is read). -/
structure ContextObj where
  type : String
deriving DecidableEq, Repr

/-- One item of a recently-played response: a track, an optional
played_at string (item.get, default empty) and a nullable context. -/
structure RecentItem where
  track : Track
  played_at : Option String
  context : Option ContextObj
deriving DecidableEq, Repr

/-- A full artist object from the top-artists response. -/
structure ArtistFull where
  name : String
  popularity : Nat
  genres : List String
deriving DecidableEq, Repr

/-- The export record: the flat dict every fetcher appends to its result
list. All three fetchers set the same eight keys; only top-artist records
additionally set a genres key, modelled as an `Option`. -/
structure Record where
  type : String
  track_name : String
  artists : String
  album : String
  duration_ms : Val
  popularity : Nat
  played_at : String
  context : String
  genres : Option String
deriving DecidableEq, Repr

/-- Comma-joining of a list of names, as Python writes it. -/
def joinComma (names : List String) : String :=
  String.intercalate ", " names

/-- The played_at formatting step of get_recently_played: an empty (or
absent) played_at yields the empty string without calling strptime;
otherwise the string is parsed and reformatted by the library, modelled by
the abstract `fmtPlayed` (none = strptime raised). -/
def recentPlayedAt (fmtPlayed : String → Option String) (item : RecentItem) :
    Option String :=
  let played_at := item.played_at.getD ""
  if played_at = "" then some "" else fmtPlayed played_at

/-- The body of the loop of get_recently_played: build one export record
from one recently-played item (none = an exception escaped the loop). -/
def processRecentItem (fmtPlayed : String → Option String) (item : RecentItem) :
    Option Record :=
  match recentPlayedAt fmtPlayed item with
  | none => none
  | some pf =>
    some { type := "recent"
           track_name := item.track.name
           artists := joinComma (item.track.artists.map ArtistRef.name)
           album := item.track.album.name
           duration_ms := Val.n item.track.duration_ms
           popularity := item.track.popularity
           played_at := pf
           context := match item.context with
             | some c => c.type
             | none => "Unknown"
           genres := none }

/-- Run a fallible step over a list, as a Python for-loop wrapped in a
try block does: the first exception discards the partial result list. -/
def mapOption (f : α → Option β) : List α → Option (List β)
  | [] => some []
  | x :: xs =>
    match f x with
    | none => none
    | some y =>
      match mapOption f xs with
      | none => none
      | some ys => some (y :: ys)

/-- get_recently_played: one request (an `Except`, error = the call
raised), then the flattening loop; any exception yields the empty list. -/
def get_recently_played (fmtPlayed : String → Option String)
    (resp : Except String (List RecentItem)) : List Record :=
  match resp with
  | .error _ => []
  | .ok items =>
    match mapOption (processRecentItem fmtPlayed) items with
    | none => []
    | some recs => recs

/-- The body of the loop of get_top_tracks: here an item is the track
itself and no step can raise. -/
def processTopTrack (time_range : String) (track : Track) : Record :=
  { type := "top_" ++ time_range
    track_name := track.name
    artists := joinComma (track.artists.map ArtistRef.name)
    album := track.album.name
    duration_ms := Val.n track.duration_ms
    popularity := track.popularity
    played_at := ""
    context := "top_tracks"
    genres := none }

/-- get_top_tracks: one request, then the flattening loop; a request
error yields the empty list. -/
def get_top_tracks (time_range : String)
    (resp : Except String (List Track)) : List Record :=
  match resp with
  | .error _ => []
  | .ok items => items.map (processTopTrack time_range)

/-- The body of the loop of get_top_artists: track fields are blanked,
the artist name and popularity are copied, and the first three genres are
comma-joined into the extra genres key. -/
def processTopArtist (time_range : String) (artist : ArtistFull) : Record :=
  { type := "artist_" ++ time_range
    track_name := ""
    artists := artist.name
    album := ""
    duration_ms := Val.s ""
    popularity := artist.popularity
    played_at := ""
    context := "top_artists"
    genres := some (joinComma (artist.genres.take 3)) }

/-- get_top_artists: one request, then the flattening loop; a request
error yields the empty list. -/
def get_top_artists (time_range : String)
    (resp : Except String (List ArtistFull)) : List Record :=
  match resp with
  | .error _ => []
  | .ok items => items.map (processTopArtist time_range)

/-- The fixed header row of get_google_sheet. -/
def headers : Row :=
  [Val.s "Timestamp", Val.s "Type", Val.s "Track Name", Val.s "Artist(s)",
   Val.s "Album", Val.s "Duration (ms)", Val.s "Popularity",
   Val.s "Played At", Val.s "Context"]

/-- Emptiness test of cell A1: worksheet.get of A1 is falsy exactly when
the sheet has no first row, its first row has no first cell, or that cell
holds the empty string. -/
def a1Empty (sheet : Sheet) : Bool :=
  match sheet.head? with
  | none => true
  | some r =>
    match r.head? with
    | none => true
    | some v => v == Val.s ""

/-- The header step of get_google_sheet: append the header row exactly
when cell A1 is empty (the connection and credential steps are outside
the model; the function returns the worksheet contents). -/
def get_google_sheet (sheet : Sheet) : Sheet :=
  if a1Empty sheet then sheet ++ [headers] else sheet

/-- The row built for one record by export_to_sheets: nine cells, from
item.get of each key in the fixed order (every produced record carries
all eight row keys, so no default fires; the genres key is never read). -/
def recordToRow (timestamp : String) (item : Record) : Row :=
  [Val.s timestamp, Val.s item.type, Val.s item.track_name,
   Val.s item.artists, Val.s item.album, item.duration_ms,
   Val.n item.popularity, Val.s item.played_at, Val.s item.context]

/-- The rows list built by export_to_sheets before batching: one shared
timestamp, computed once, heads every row. -/
def exportRows (timestamp : String) (data : List Record) : List Row :=
  data.map (recordToRow timestamp)

/-- The slicing loop rows[i : i + n] for i in range(0, len, n): successive
slices of width n, in order. -/
def chunks (n : Nat) (l : List α) : List (List α) :=
  if _hn : n = 0 then []
  else if hl : l.isEmpty then []
  else l.take n :: chunks n (l.drop n)
termination_by l.length
decreasing_by
  simp only [List.length_drop]
  have : l ≠ [] := by simpa [List.isEmpty_iff] using hl
  have : 0 < l.length := List.length_pos.mpr this
  omega

/-- One append_rows attempt per batch: success appends the batch to the
sheet, failure is only logged. -/
inductive BatchEvent where
  | appended (batch : List Row)
  | failed (batch : List Row)
deriving DecidableEq, Repr

/-- The batch a write event was attempted with. -/
def eventBatch : BatchEvent → List Row
  | .appended b => b
  | .failed b => b

/-- The write loop of export_to_sheets: each batch is attempted once, in
order; `fails i` tells whether the i-th append_rows call raises. The
result is the final sheet contents and the log of attempts. -/
def writeBatches (fails : Nat → Bool) :
    Nat → Sheet → List (List Row) → Sheet × List BatchEvent
  | _, sheet, [] => (sheet, [])
  | i, sheet, b :: rest =>
    if fails i then
      let r := writeBatches fails (i + 1) sheet rest
      (r.1, BatchEvent.failed b :: r.2)
    else
      let r := writeBatches fails (i + 1) (sheet ++ b) rest
      (r.1, BatchEvent.appended b :: r.2)

/-- export_to_sheets: empty data returns at once with no write; otherwise
the rows (one shared timestamp) are cut into batches of 50 and written in
order, batch failures logged and skipped. -/
def export_to_sheets (fails : Nat → Bool) (timestamp : String)
    (worksheet : Sheet) (data : List Record) : Sheet × List BatchEvent :=
  if data.isEmpty then (worksheet, [])
  else writeBatches fails 0 worksheet (chunks 50 (exportRows timestamp data))

/-- A cached Spotify token, as loaded from spotify_token.json: an opaque
blob of which the code reads the refresh and access token fields; its
expiry is judged by the library. -/
structure TokenInfo where
  access_token : String
  refresh_token : String
  expires_at : Nat
deriving DecidableEq, Repr

/-- Side effects of the cached-token branch of authenticate_spotify. -/
inductive AuthEvent where
  | refreshToken
  | writeTokenFile
deriving DecidableEq, Repr

/-- The cached-token branch of authenticate_spotify, entered when the
token file exists and loads: the library predicate isExpired decides
whether refresh_access_token runs (and the file is rewritten); the client
is then built from the resulting token. Returns that token and the side
effects, in order. -/
def authenticate_spotify (isExpired : TokenInfo → Bool)
    (refresh : String → TokenInfo) (cached : TokenInfo) :
    TokenInfo × List AuthEvent :=
  if isExpired cached then
    let t := refresh cached.refresh_token
    (t, [AuthEvent.refreshToken, AuthEvent.writeTokenFile])
  else
    (cached, [])

/-- A sample track used to evaluate the model on concrete inputs. -/
def sampleTrack : Track :=
  { name := "Song"
    artists := [{ name := "Artist" }]
    album := { name := "Album" }
    duration_ms := 200000
    popularity := 42 }

/-- A sample recently-played item with no played_at and no context. -/
def sampleItem : RecentItem :=
  { track := sampleTrack, played_at := none, context := none }

/-- The record get_recently_played builds from sampleItem. -/
def sampleProcessed : Record :=
  { type := "recent"
    track_name := "Song"
    artists := "Artist"
    album := "Album"
    duration_ms := Val.n 200000
    popularity := 42
    played_at := ""
    context := "Unknown"
    genres := none }

/-- A sample export record used to evaluate the writer on concrete
inputs. -/
def sampleRecord : Record := sampleProcessed

/-- A recently-played item whose track has no artists and that has no
context. -/
def emptyArtistsItem : RecentItem :=
  { track :=
      { name := "S", artists := [], album := { name := "" },
        duration_ms := 0, popularity := 0 }
    played_at := none
    context := none }

/-- The record get_recently_played builds from emptyArtistsItem. -/
def emptyArtistsRecord : Record :=
  { type := "recent"
    track_name := "S"
    artists := ""
    album := ""
    duration_ms := Val.n 0
    popularity := 0
    played_at := ""
    context := "Unknown"
    genres := none }

/-- A recently-played item whose played_at string is present, so the
strptime step runs on it. -/
def badItem : RecentItem :=
  { track := sampleTrack
    played_at := some "2024-01-01T00:00:00.000Z"
    context := none }

/-- A sample cached token. -/
def sampleToken : TokenInfo :=
  { access_token := "a", refresh_token := "r", expires_at := 0 }

/-! Helper lemmas. -/

theorem chunks_flatten (n : Nat) (hn : 0 < n) (l : List α) :
    (chunks n l).flatten = l := by
  rw [chunks]
  by_cases hz : n = 0
  · omega
  simp only [dif_neg hz]
  by_cases hl : l.isEmpty
  · simp only [dif_pos hl, List.flatten_nil]
    exact (List.isEmpty_iff.mp hl).symm
  · simp only [dif_neg hl, List.flatten_cons]
    rw [chunks_flatten n hn (l.drop n)]
    exact List.take_append_drop n l
termination_by l.length
decreasing_by
  simp only [List.length_drop]
  have : l ≠ [] := by simpa [List.isEmpty_iff] using hl
  have : 0 < l.length := List.length_pos.mpr this
  omega

theorem chunks_size_le (n : Nat) (l : List α) :
    ∀ b ∈ chunks n l, b.length ≤ n := by
  intro b hb
  rw [chunks] at hb
  by_cases hz : n = 0
  · simp [dif_pos hz] at hb
  simp only [dif_neg hz] at hb
  by_cases hl : l.isEmpty
  · simp [dif_pos hl] at hb
  simp only [dif_neg hl, List.mem_cons] at hb
  rcases hb with rfl | hb
  · simpa using Nat.min_le_left n l.length
  · exact chunks_size_le n (l.drop n) b hb
termination_by l.length
decreasing_by
  simp only [List.length_drop]
  have : l ≠ [] := by simpa [List.isEmpty_iff] using hl
  have : 0 < l.length := List.length_pos.mpr this
  omega

theorem chunks_count (n : Nat) (hn : 0 < n) (l : List α) :
    (chunks n l).length = (l.length + n - 1) / n := by
  rw [chunks]
  by_cases hz : n = 0
  · omega
  simp only [dif_neg hz]
  by_cases hl : l.isEmpty
  · have : l = [] := List.isEmpty_iff.mp hl
    subst this
    rw [dif_pos hl]
    simp only [List.length_nil]
    rw [Nat.div_eq_of_lt (by omega : 0 + n - 1 < n)]
  · have hpos : 0 < l.length :=
      List.length_pos.mpr (by simpa [List.isEmpty_iff] using hl)
    simp only [dif_neg hl, List.length_cons]
    rw [chunks_count n hn (l.drop n)]
    simp only [List.length_drop]
    rw [show l.length + n - 1 = (l.length - 1) + n by omega,
      Nat.add_div_right _ hn]
    rcases le_or_lt n l.length with hle | hlt
    · rw [show l.length - n + n - 1 = l.length - 1 by omega]
    · rw [show l.length - n = 0 by omega]
      rw [Nat.div_eq_of_lt (by omega : 0 + n - 1 < n),
        Nat.div_eq_of_lt (by omega : l.length - 1 < n)]
termination_by l.length
decreasing_by
  simp only [List.length_drop]
  omega

theorem writeBatches_spec (fails : Nat → Bool) (bs : List (List Row))
    (i : Nat) (sheet : Sheet) :
    writeBatches fails i sheet bs =
      (sheet ++ ((bs.enumFrom i).filterMap
          (fun p => if fails p.1 then none else some p.2)).flatten,
        (bs.enumFrom i).map
          (fun p => if fails p.1 then BatchEvent.failed p.2
            else BatchEvent.appended p.2)) := by
  induction bs generalizing i sheet with
  | nil => simp [writeBatches, List.enumFrom]
  | cons b rest ih =>
    rw [writeBatches]
    by_cases hf : fails i
    · simp [hf, List.enumFrom, ih (i + 1) sheet]
    · simp [hf, List.enumFrom, ih (i + 1) (sheet ++ b), List.append_assoc]

theorem mapOption_length (f : α → Option β) :
    ∀ (l : List α) (ys : List β), mapOption f l = some ys →
      ys.length = l.length := by
  intro l
  induction l with
  | nil => intro ys h; simp [mapOption] at h; simp [← h]
  | cons x xs ih =>
    intro ys h
    rw [mapOption] at h
    cases hx : f x with
    | none => rw [hx] at h; exact absurd h (by simp)
    | some y =>
      rw [hx] at h
      cases hxs : mapOption f xs with
      | none => rw [hxs] at h; exact absurd h (by simp)
      | some zs =>
        rw [hxs] at h
        injection h with h
        subst h
        simp [ih zs hxs]

theorem mapOption_map (f : α → Option β) (g : β → γ) (gs : α → γ)
    (hpt : ∀ x y, f x = some y → g y = gs x) :
    ∀ (l : List α) (ys : List β), mapOption f l = some ys →
      ys.map g = l.map gs := by
  intro l
  induction l with
  | nil => intro ys h; simp [mapOption] at h; simp [← h]
  | cons x xs ih =>
    intro ys h
    rw [mapOption] at h
    cases hx : f x with
    | none => rw [hx] at h; exact absurd h (by simp)
    | some y =>
      rw [hx] at h
      cases hxs : mapOption f xs with
      | none => rw [hxs] at h; exact absurd h (by simp)
      | some zs =>
        rw [hxs] at h
        injection h with h
        subst h
        simp [hpt x y hx, ih zs hxs]

theorem processRecentItem_fields (fmtPlayed : String → Option String)
    (item : RecentItem) (rec : Record)
    (h : processRecentItem fmtPlayed item = some rec) :
    rec.type = "recent"
    ∧ rec.track_name = item.track.name
    ∧ rec.artists = joinComma (item.track.artists.map ArtistRef.name)
    ∧ rec.album = item.track.album.name
    ∧ rec.duration_ms = Val.n item.track.duration_ms
    ∧ rec.popularity = item.track.popularity
    ∧ rec.context = (match item.context with
        | some c => c.type
        | none => "Unknown") := by
  rw [processRecentItem] at h
  cases hpa : recentPlayedAt fmtPlayed item with
  | none => rw [hpa] at h; exact absurd h (by simp)
  | some pf =>
    rw [hpa] at h
    injection h with h
    subst h
    exact ⟨rfl, rfl, rfl, rfl, rfl, rfl, rfl⟩

theorem map_eventBatch_enumFrom (fails : Nat → Bool) (i : Nat)
    (bs : List (List Row)) :
    ((List.enumFrom i bs).map
      (fun p => if fails p.1 then BatchEvent.failed p.2
        else BatchEvent.appended p.2)).map eventBatch = bs := by
  induction bs generalizing i with
  | nil => simp [List.enumFrom]
  | cons b rest ih =>
    by_cases hf : fails i <;> simp [List.enumFrom, hf, eventBatch, ih]

/-! Claim theorems. -/

/-- C1: export_to_sheets cuts the R rows of a nonempty record list into
ceil(R/50) batches, each of at most 50 rows, and the concatenation of the
batches in the order they are written is the input row sequence. -/
theorem export_batches_partition (timestamp : String) (data : List Record)
    (h : 0 < data.length) :
    (chunks 50 (exportRows timestamp data)).length = (data.length + 49) / 50
    ∧ (∀ b ∈ chunks 50 (exportRows timestamp data), b.length ≤ 50)
    ∧ (chunks 50 (exportRows timestamp data)).flatten = exportRows timestamp data
    ∧ ∀ (fails : Nat → Bool) (sheet : Sheet),
        ((export_to_sheets fails timestamp sheet data).2.map eventBatch).flatten
          = exportRows timestamp data := by
  refine ⟨?_, chunks_size_le 50 _, chunks_flatten 50 (by omega) _, ?_⟩
  · rw [chunks_count 50 (by omega)]
    simp [exportRows]
  · intro fails sheet
    rw [export_to_sheets]
    have hne : ¬data.isEmpty = true := by
      rcases data with - | -
      · simp at h
      · simp
    rw [if_neg hne, writeBatches_spec]
    rw [map_eventBatch_enumFrom]
    exact chunks_flatten 50 (by omega) _

/-- Witness for C1 at a one-record list. -/
theorem export_batches_partition_witness :
    (chunks 50 (exportRows "t" [sampleRecord])).length = (1 + 49) / 50 :=
  (export_batches_partition "t" [sampleRecord] (by simp)).1

/-- C2: on a well-formed response of N items, each fetcher returns
exactly N flattened records carrying the documented field mapping (track
name, comma-joined artists, album name, duration, popularity). -/
theorem fetchers_flatten_all (fmtPlayed : String → Option String)
    (time_range : String) (ritems : List RecentItem) (recs : List Record)
    (hr : mapOption (processRecentItem fmtPlayed) ritems = some recs)
    (titems : List Track) (aitems : List ArtistFull) :
    (get_recently_played fmtPlayed (Except.ok ritems) = recs
      ∧ recs.length = ritems.length
      ∧ recs.map Record.track_name = ritems.map (fun i => i.track.name)
      ∧ recs.map Record.artists =
          ritems.map (fun i => joinComma (i.track.artists.map ArtistRef.name))
      ∧ recs.map Record.album = ritems.map (fun i => i.track.album.name)
      ∧ recs.map Record.duration_ms =
          ritems.map (fun i => Val.n i.track.duration_ms)
      ∧ recs.map Record.popularity = ritems.map (fun i => i.track.popularity))
    ∧ ((get_top_tracks time_range (Except.ok titems)).length = titems.length
      ∧ (get_top_tracks time_range (Except.ok titems)).map Record.track_name
          = titems.map Track.name
      ∧ (get_top_tracks time_range (Except.ok titems)).map Record.artists
          = titems.map (fun t => joinComma (t.artists.map ArtistRef.name))
      ∧ (get_top_tracks time_range (Except.ok titems)).map Record.album
          = titems.map (fun t => t.album.name)
      ∧ (get_top_tracks time_range (Except.ok titems)).map Record.duration_ms
          = titems.map (fun t => Val.n t.duration_ms)
      ∧ (get_top_tracks time_range (Except.ok titems)).map Record.popularity
          = titems.map Track.popularity)
    ∧ ((get_top_artists time_range (Except.ok aitems)).length = aitems.length
      ∧ (get_top_artists time_range (Except.ok aitems)).map Record.popularity
          = aitems.map ArtistFull.popularity
      ∧ (get_top_artists time_range (Except.ok aitems)).map Record.artists
          = aitems.map ArtistFull.name) := by
  refine ⟨⟨?_, mapOption_length _ _ _ hr, ?_, ?_, ?_, ?_, ?_⟩,
    ⟨?_, ?_, ?_, ?_, ?_, ?_⟩, ⟨?_, ?_, ?_⟩⟩
  · simp [get_recently_played, hr]
  · exact mapOption_map _ _ _
      (fun x y hxy => (processRecentItem_fields _ x y hxy).2.1) ritems recs hr
  · exact mapOption_map _ _ _
      (fun x y hxy => (processRecentItem_fields _ x y hxy).2.2.1) ritems recs hr
  · exact mapOption_map _ _ _
      (fun x y hxy => (processRecentItem_fields _ x y hxy).2.2.2.1) ritems recs hr
  · exact mapOption_map _ _ _
      (fun x y hxy => (processRecentItem_fields _ x y hxy).2.2.2.2.1) ritems recs hr
  · exact mapOption_map _ _ _
      (fun x y hxy => (processRecentItem_fields _ x y hxy).2.2.2.2.2.1) ritems recs hr
  · simp [get_top_tracks]
  · rw [show get_top_tracks time_range (Except.ok titems)
        = titems.map (processTopTrack time_range) from rfl, List.map_map]
    rfl
  · rw [show get_top_tracks time_range (Except.ok titems)
        = titems.map (processTopTrack time_range) from rfl, List.map_map]
    rfl
  · rw [show get_top_tracks time_range (Except.ok titems)
        = titems.map (processTopTrack time_range) from rfl, List.map_map]
    rfl
  · rw [show get_top_tracks time_range (Except.ok titems)
        = titems.map (processTopTrack time_range) from rfl, List.map_map]
    rfl
  · rw [show get_top_tracks time_range (Except.ok titems)
        = titems.map (processTopTrack time_range) from rfl, List.map_map]
    rfl
  · simp [get_top_artists]
  · rw [show get_top_artists time_range (Except.ok aitems)
        = aitems.map (processTopArtist time_range) from rfl, List.map_map]
    rfl
  · rw [show get_top_artists time_range (Except.ok aitems)
        = aitems.map (processTopArtist time_range) from rfl, List.map_map]
    rfl

/-- Witness for C2 at a one-item recently-played response. -/
theorem fetchers_flatten_all_witness :
    get_recently_played (fun _ => none) (Except.ok [sampleItem])
      = [sampleProcessed] :=
  (fetchers_flatten_all (fun _ => none) "medium_term" [sampleItem]
    [sampleProcessed] (by decide) [] []).1.1

/-- C3: a recently-played item with no playback context yields a record
whose context is "Unknown", and one whose track has no artists yields an
empty artists string. -/
theorem recent_item_defaults (fmtPlayed : String → Option String)
    (item : RecentItem) (rec : Record)
    (h : processRecentItem fmtPlayed item = some rec) :
    (item.context = none → rec.context = "Unknown")
    ∧ (item.track.artists = [] → rec.artists = "") := by
  obtain ⟨-, -, ha, -, -, -, hc⟩ := processRecentItem_fields fmtPlayed item rec h
  constructor
  · intro hn
    rw [hc, hn]
  · intro hnil
    rw [ha, hnil]
    rfl

/-- Witness for C3 at an item with no context and no artists. -/
theorem recent_item_defaults_witness :
    emptyArtistsRecord.context = "Unknown" ∧ emptyArtistsRecord.artists = "" :=
  ⟨(recent_item_defaults (fun _ => none) emptyArtistsItem emptyArtistsRecord
      (by decide)).1 rfl,
   (recent_item_defaults (fun _ => none) emptyArtistsItem emptyArtistsRecord
      (by decide)).2 rfl⟩

/-- C4: get_google_sheet appends the header row exactly when cell A1 is
empty; a sheet whose first row is the header is left unchanged, and a
second run after the first on an empty sheet changes nothing. -/
theorem header_iff_a1_empty (sheet : Sheet) :
    (a1Empty sheet = true → get_google_sheet sheet = sheet ++ [headers])
    ∧ (a1Empty sheet = false → get_google_sheet sheet = sheet)
    ∧ (sheet.head? = some headers → get_google_sheet sheet = sheet)
    ∧ get_google_sheet (get_google_sheet []) = get_google_sheet [] := by
  refine ⟨?_, ?_, ?_, by decide⟩
  · intro hempt
    rw [get_google_sheet, if_pos hempt]
  · intro hfull
    rw [get_google_sheet, hfull]
    rfl
  · intro hh
    have ha : a1Empty sheet = false := by
      rw [a1Empty, hh]
      rfl
    rw [get_google_sheet, ha]
    rfl

/-- Witness for C4 at a sheet holding exactly the header row. -/
theorem header_iff_a1_empty_witness :
    get_google_sheet [headers] = [headers] :=
  (header_iff_a1_empty [headers]).2.2.1 rfl

/-- C5: in the cached-token branch of authenticate_spotify the refresh
call and the token-file rewrite happen exactly when the library judges
the cached token expired; the client token is the refreshed one in that
case and the cached one otherwise. -/
theorem token_refresh_iff (isExpired : TokenInfo → Bool)
    (refresh : String → TokenInfo) (cached : TokenInfo) :
    (AuthEvent.refreshToken ∈ (authenticate_spotify isExpired refresh cached).2
      ↔ isExpired cached = true)
    ∧ (AuthEvent.writeTokenFile ∈ (authenticate_spotify isExpired refresh cached).2
      ↔ isExpired cached = true)
    ∧ (isExpired cached = true →
        (authenticate_spotify isExpired refresh cached).1
          = refresh cached.refresh_token)
    ∧ (isExpired cached = false →
        (authenticate_spotify isExpired refresh cached).1 = cached) := by
  by_cases he : isExpired cached = true
  · simp [authenticate_spotify, he]
  · simp [authenticate_spotify, he, Bool.not_eq_true] at *

/-- Witness for C5 with an always-expired oracle. -/
theorem token_refresh_iff_witness :
    AuthEvent.refreshToken ∈
      (authenticate_spotify (fun _ => true) (fun _ => sampleToken)
        sampleToken).2 :=
  (token_refresh_iff (fun _ => true) (fun _ => sampleToken) sampleToken).1.mpr rfl

/-- C6: each fetcher returns the empty list when the request raises, and
get_recently_played also returns the empty list when the flattening loop
raises on some item, rather than propagating the error. -/
theorem fetchers_error_empty (fmtPlayed : String → Option String)
    (e : String) (time_range : String) :
    get_recently_played fmtPlayed (Except.error e) = []
    ∧ get_top_tracks time_range (Except.error e) = []
    ∧ get_top_artists time_range (Except.error e) = []
    ∧ ∀ ritems : List RecentItem,
        mapOption (processRecentItem fmtPlayed) ritems = none →
          get_recently_played fmtPlayed (Except.ok ritems) = [] := by
  refine ⟨rfl, rfl, rfl, ?_⟩
  intro ritems hnone
  simp [get_recently_played, hnone]

/-- Witness for C6 at a one-item response whose strptime step raises. -/
theorem fetchers_error_empty_witness :
    get_recently_played (fun _ => none) (Except.ok [badItem]) = [] :=
  (fetchers_error_empty (fun _ => none) "boom" "medium_term").2.2.2
    [badItem] (by decide)

/-- C7: every row built by export_to_sheets has exactly nine cells in the
fixed order Timestamp, Type, Track Name, Artist(s), Album, Duration (ms),
Popularity, Played At, Context; the genres field a top-artist record
carries (the first three genres comma-joined) is never written. -/
theorem row_schema (timestamp : String) (item : Record) :
    (recordToRow timestamp item).length = 9
    ∧ recordToRow timestamp item =
        [Val.s timestamp, Val.s item.type, Val.s item.track_name,
         Val.s item.artists, Val.s item.album, item.duration_ms,
         Val.n item.popularity, Val.s item.played_at, Val.s item.context]
    ∧ (∀ g, recordToRow timestamp { item with genres := g }
        = recordToRow timestamp item)
    ∧ ∀ (tr : String) (a : ArtistFull),
        (processTopArtist tr a).genres = some (joinComma (a.genres.take 3)) :=
  ⟨rfl, rfl, fun _ => rfl, fun _ _ => rfl⟩

/-- C8: every batch is attempted exactly once and in order; a failed
append is logged as a failed event and its rows are dropped from the
sheet, while all later batches are still attempted and appended on
success. -/
theorem export_batch_failure_skipped (fails : Nat → Bool)
    (timestamp : String) (sheet : Sheet) (data : List Record) :
    (export_to_sheets fails timestamp sheet data).2 =
      (List.enumFrom 0 (chunks 50 (exportRows timestamp data))).map
        (fun p => if fails p.1 then BatchEvent.failed p.2
          else BatchEvent.appended p.2)
    ∧ (export_to_sheets fails timestamp sheet data).2.length =
        (chunks 50 (exportRows timestamp data)).length
    ∧ (export_to_sheets fails timestamp sheet data).1 =
        sheet ++ ((List.enumFrom 0 (chunks 50 (exportRows timestamp data))).filterMap
          (fun p => if fails p.1 then none else some p.2)).flatten := by
  rw [export_to_sheets]
  by_cases hd : data.isEmpty
  · have : data = [] := List.isEmpty_iff.mp hd
    subst this
    rw [if_pos hd]
    have hch : chunks 50 (exportRows timestamp []) = [] := by
      rw [chunks]
      simp [exportRows]
    simp [hch, List.enumFrom]
  · rw [if_neg hd, writeBatches_spec]
    refine ⟨rfl, by simp, rfl⟩

/-- C9: export_to_sheets on an empty record list performs no write and
leaves the worksheet unchanged. -/
theorem export_empty_no_write (fails : Nat → Bool) (timestamp : String)
    (sheet : Sheet) :
    export_to_sheets fails timestamp sheet [] = (sheet, []) := by
  rw [export_to_sheets]
  rfl

/-- C10: every row of one export run starts with the one timestamp
computed before the loop. -/
theorem export_rows_share_timestamp (timestamp : String)
    (data : List Record) :
    ∀ row ∈ exportRows timestamp data, row.head? = some (Val.s timestamp) := by
  intro row hrow
  simp only [exportRows, List.mem_map] at hrow
  obtain ⟨r, -, rfl⟩ := hrow
  rfl

/-- Witness for C10 at a one-record list. -/
theorem export_rows_share_timestamp_witness :
    (recordToRow "2024-01-01 00:00:00" sampleRecord).head?
      = some (Val.s "2024-01-01 00:00:00") :=
  export_rows_share_timestamp "2024-01-01 00:00:00" [sampleRecord]
    (recordToRow "2024-01-01 00:00:00" sampleRecord)
    (by simp [exportRows])

end MusicSheet
